import Mathlib

/-!
Shallow embedding of `libraries/entities/src/EntityCollisionSystem.cpp`
(the per-tick entity collision detection and impulse-resolution engine),
with machine floating point modelled as exact real arithmetic.  External
collaborators — the octree spatial index, the avatar registry, the packet
sender and the wall clock — live outside the examined sources; they are
modelled as oracles supplied through `SystemEnv`, following the collaborator
contracts of the specification (spec sections 4.5 and 6).
-/

/-- Three-component vector modelling `glm::vec3`, with exact real arithmetic
in place of `float`. -/
@[ext]
structure Vec3 where
  x : ℝ
  y : ℝ
  z : ℝ

namespace Vec3

/-- Componentwise vector addition. -/
def add (a b : Vec3) : Vec3 := ⟨a.x + b.x, a.y + b.y, a.z + b.z⟩

/-- Componentwise vector subtraction. -/
def sub (a b : Vec3) : Vec3 := ⟨a.x - b.x, a.y - b.y, a.z - b.z⟩

/-- Scalar times vector. -/
def smul (c : ℝ) (v : Vec3) : Vec3 := ⟨c * v.x, c * v.y, c * v.z⟩

/-- Vector divided by a scalar. -/
noncomputable def div (v : Vec3) (c : ℝ) : Vec3 := ⟨v.x / c, v.y / c, v.z / c⟩

/-- Dot product, modelling `glm::dot`. -/
def dot (a b : Vec3) : ℝ := a.x * b.x + a.y * b.y + a.z * b.z

/-- Euclidean norm, modelling `glm::length`. -/
noncomputable def length (v : Vec3) : ℝ := Real.sqrt (v.dot v)

/-- Unit vector in the direction of `v`, modelling `glm::normalize`. -/
noncomputable def normalize (v : Vec3) : Vec3 := v.div v.length

end Vec3

/-- Modelled from the spec: the fixed world-scale constant relating
normalized tree units to raw world coordinates (spec section 3).  Its
defining header is outside the examined sources; the historical value
16384 is used.  No claim depends on the exact value, only on it being a
fixed constant. -/
def TREE_SCALE : ℝ := 16384

/-- File-scope constant of `EntityCollisionSystem.cpp` (line 28): the
capacity of the member buffer `_collisions` used by the avatar resolver. -/
def MAX_COLLISIONS_PER_Entity : ℕ := 16

/-- Local constant of `updateCollisionWithEntities` (line 86): the capacity
of the per-call `CollisionList` used by the entity-pair resolver. -/
def MAX_COLLISIONS_PER_ENTITY : ℕ := 32

/-- Fixed damping annotated onto every avatar contact
(`updateCollisionWithAvatars`, line 215). -/
def DAMPING : ℝ := 0.1

/-- Fixed elasticity annotated onto every avatar contact
(`updateCollisionWithAvatars`, line 214). -/
def ELASTICITY : ℝ := 0.9

/-- Halting period constant of `applyHardCollision` (line 258). -/
def HALTING_ENTITY_PERIOD : ℝ := 0.0167

/-- Halting speed threshold of `applyHardCollision` (line 259). -/
noncomputable def HALTING_ENTITY_SPEED : ℝ := 9.8 * HALTING_ENTITY_PERIOD / TREE_SCALE

/-- Threshold constant of `applyHardCollision` (line 271). -/
def EPSILON : ℝ := 0.0

/-- One per-contact record, modelling `CollisionInfo`.  The opaque
`_extraData` back-pointer to the colliding counterpart becomes an optional
entity identifier (`none` models a NULL pointer). -/
structure CollisionInfo where
  penetration : Vec3
  contactPoint : Vec3
  addedVelocity : Vec3
  damping : ℝ
  elasticity : ℝ
  extraData : Option ℕ

instance : Inhabited CollisionInfo := ⟨⟨⟨0, 0, 0⟩, ⟨0, 0, 0⟩, ⟨0, 0, 0⟩, 0, 0, none⟩⟩

/-- One simulated object, modelling the fields of `EntityItem` this core
reads.  Position, velocity and radius are in normalized tree units, as
returned by the entity's getters at the call sites. -/
structure EntityItem where
  id : ℕ
  isKnownID : Bool
  ignoreForCollisions : Bool
  collisionsWillMove : Bool
  position : Vec3
  velocity : Vec3
  radius : ℝ
  largestDimension : ℝ
  mass : ℝ

/-- The slice of `EntityItemProperties` this core writes: identifier,
position and velocity in raw world coordinates, and the last-edited
timestamp. -/
structure EntityItemProperties where
  entityID : ℕ
  position : Vec3
  velocity : Vec3
  lastEdited : ℕ

/-- One collision notification, as emitted by
`emitGlobalEntityCollisionWithEntity`. -/
structure CollisionEvent where
  idA : ℕ
  idB : ℕ
  penetration : Vec3
  contactPoint : Vec3

/-- Observable effects accumulated during a tick: property updates applied
to the spatial index (`EntityTree::updateEntity`), property-edit messages
queued to the network (`queueEditEntityMessage`), and collision
notifications (`emit entityCollisionWithEntity`). -/
structure Effects where
  treeUpdates : List EntityItemProperties
  queuedMessages : List EntityItemProperties
  emitted : List CollisionEvent

/-- Effects of doing nothing. -/
def Effects.empty : Effects := ⟨[], [], []⟩

/-- Concatenation of effects, in order of occurrence. -/
def Effects.append (a b : Effects) : Effects :=
  ⟨a.treeUpdates ++ b.treeUpdates, a.queuedMessages ++ b.queuedMessages,
   a.emitted ++ b.emitted⟩

/-- The authoritative entity store owned by the spatial index: C++ entity
pointers become entity identifiers, and dereferencing a (valid, non-null)
pointer becomes applying the store. -/
abbrev EntityTree := ℕ → EntityItem

/-- Modelled from the spec: `EntityTree::updateEntity` (outside the examined
sources) applies a property update to the stored entity; per the unit-scale
boundary invariant of spec sections 3 and 4.5, the raw-coordinate position
and velocity of the update are converted back to normalized tree units by
the world-scale constant on write. -/
noncomputable def EntityTree.updateEntity (store : EntityTree) (i : ℕ) (p : EntityItemProperties) :
    EntityTree :=
  fun j => if j = i then
    { store i with position := p.position.div TREE_SCALE,
                   velocity := p.velocity.div TREE_SCALE }
  else store j

/-- One avatar as seen through the avatar registry: position, bounding
radius, and the contacts its sphere-overlap query reports.
`sphereContacts` is modelled from the spec (section 6): the exact contacts
this avatar's `findSphereCollisions` query would report for the probing
entity's sphere during this scan. -/
structure AvatarData where
  position : Vec3
  boundingRadius : ℝ
  sphereContacts : List CollisionInfo

/-- Oracles standing for the external collaborators of one tick:
the outcome of `EntityTree::tryLockForWrite`, the `_movingEntities`
working set, the overlap records `EntityTree::findShapeCollisions` reports
for each probing entity (before the bounded buffer truncates them),
whether the `AvatarHashMap` dependency is available, and the avatar
registry's contents in iteration order. -/
structure SystemEnv where
  lockForWrite : Bool
  movingEntities : List ℕ
  shapeOverlaps : ℕ → List CollisionInfo
  avatarRegistryPresent : Bool
  avatars : List AvatarData

/-- Mass-ratio computation of `updateCollisionWithEntities` (lines 136-151):
the symmetric elastic-collision coefficients, overridden to 2/0 when
exactly one side is movable. -/
noncomputable def massRatios (massA massB : ℝ) (wantToMoveA wantToMoveB : Bool) :
    ℝ × ℝ :=
  let totalMass := massA + massB
  let massRatioA := 2 * massB / totalMass
  let massRatioB := 2 * massA / totalMass
  let r1 : ℝ × ℝ :=
    if wantToMoveA && !wantToMoveB then (2, 0) else (massRatioA, massRatioB)
  if !wantToMoveA && wantToMoveB then (0, 2) else r1

/-- Loop body of `updateCollisionWithEntities` (lines 94-197): processing of
one overlap record against probing entity `aId`, threading the entity store
and the accumulated effects.  Entity pointers are dereferenced afresh at
each use, so reads after an update observe the updated state, exactly as
the source does. -/
noncomputable def pairStep (aId : ℕ) (now : ℕ) (s : EntityTree × Effects)
    (collision : CollisionInfo) : EntityTree × Effects :=
  let store := s.1
  let fx := s.2
  let entityA := store aId
  let penetration := collision.penetration
  match collision.extraData with
  | none => (store, fx)
  | some bId =>
    let entityB := store bId
    if entityB.isKnownID = false then (store, fx)
    else
      let penetrationInTreeUnits := penetration.div TREE_SCALE
      let relativeVelocity := entityA.velocity.sub entityB.velocity
      let fullyEnclosedCollision : Prop :=
        penetrationInTreeUnits.length > entityA.largestDimension
      let wantToMoveA := entityA.collisionsWillMove
      let wantToMoveB := entityB.collisionsWillMove
      let movingTowardEachOther : Prop :=
        relativeVelocity.dot penetrationInTreeUnits > 0
      if ¬ fullyEnclosedCollision ∧ movingTowardEachOther ∧
          (wantToMoveA = true ∨ wantToMoveB = true) then
        let axis := penetration.normalize
        let axialVelocity := Vec3.smul (relativeVelocity.dot axis) axis
        let ratios := massRatios entityA.mass entityB.mass wantToMoveA wantToMoveB
        let sA : EntityTree × Effects :=
          if wantToMoveA = true then
            let newVelocityA := entityA.velocity.sub (Vec3.smul ratios.1 axialVelocity)
            let newPositionA := entityA.position.sub
              (Vec3.smul 0.5 penetrationInTreeUnits)
            let propertiesA : EntityItemProperties :=
              ⟨entityA.id, Vec3.smul TREE_SCALE newPositionA,
               Vec3.smul TREE_SCALE newVelocityA, now⟩
            (store.updateEntity aId propertiesA,
             fx.append ⟨[propertiesA], [propertiesA], []⟩)
          else (store, fx)
        let sB : EntityTree × Effects :=
          if wantToMoveB = true then
            let entityB1 := sA.1 bId
            let newVelocityB := entityB1.velocity.add (Vec3.smul ratios.2 axialVelocity)
            let newPositionB := entityB1.position.add
              (Vec3.smul 0.5 penetrationInTreeUnits)
            let propertiesB : EntityItemProperties :=
              ⟨entityB1.id, Vec3.smul TREE_SCALE newPositionB,
               Vec3.smul TREE_SCALE newVelocityB, now⟩
            (sA.1.updateEntity bId propertiesB,
             sA.2.append ⟨[propertiesB], [propertiesB], []⟩)
          else sA
        let collisionEvent : CollisionEvent :=
          ⟨(sB.1 aId).id, (sB.1 bId).id, penetration,
           Vec3.smul (0.5 * TREE_SCALE) ((sB.1 aId).position.add ((sB.1 bId).position))⟩
        (sB.1, sB.2.append ⟨[], [], [collisionEvent]⟩)
      else (store, fx)

/-- Contents of the per-call `CollisionList collisions(MAX_COLLISIONS_PER_ENTITY)`
after `EntityTree::findShapeCollisions` fills it.  The filling itself is
modelled from the spec (sections 4.2 and 6): the query reports overlaps
into the bounded list and silently drops those beyond its capacity. -/
noncomputable def entityContactList (env : SystemEnv) (aId : ℕ) : List CollisionInfo :=
  (env.shapeOverlaps aId).take MAX_COLLISIONS_PER_ENTITY

/-- Entity-pair resolver `updateCollisionWithEntities` (lines 72-199):
guards on the probing entity, then folds the loop body over the bounded
contact list.  The source skips the loop when `findShapeCollisions`
reports no collision; folding over the then-empty list is identical. -/
noncomputable def updateCollisionWithEntities (env : SystemEnv) (store : EntityTree)
    (aId : ℕ) (now : ℕ) : EntityTree × Effects :=
  let entityA := store aId
  if entityA.ignoreForCollisions = true then (store, Effects.empty)
  else if entityA.isKnownID = false then (store, Effects.empty)
  else (entityContactList env aId).foldl (pairStep aId now) (store, Effects.empty)

/-- Hard-collision response `applyHardCollision` (lines 249-301) on the
entity stored at `eId`: an unknown identifier suppresses everything;
otherwise position and velocity are corrected for an approaching contact
(snap-out plus either static-friction stick or elastic reflection with
frictional damping) and the resulting properties are both applied to the
spatial index and queued as an edit message.  The wall clock
`usecTimestampNow` is modelled by the `now` parameter. -/
noncomputable def applyHardCollision (store : EntityTree) (eId : ℕ)
    (collisionInfo : CollisionInfo) (now : ℕ) : EntityTree × Effects :=
  let entity := store eId
  if entity.isKnownID = false then (store, Effects.empty)
  else
    let position := entity.position
    let velocity := entity.velocity
    let relativeVelocity := collisionInfo.addedVelocity.sub velocity
    let velocityDotPenetration := relativeVelocity.dot collisionInfo.penetration
    let pv : Vec3 × Vec3 :=
      if velocityDotPenetration < EPSILON then
        let position1 := position.sub collisionInfo.penetration
        let velocity1 :=
          if relativeVelocity.length < HALTING_ENTITY_SPEED then
            collisionInfo.addedVelocity
          else
            let direction := collisionInfo.penetration.normalize
            let velocity2 := velocity.add
              (Vec3.smul (relativeVelocity.dot direction * (1 + collisionInfo.elasticity))
                direction)
            velocity2.add
              (Vec3.smul (min (max collisionInfo.damping 0) 1)
                (relativeVelocity.sub (Vec3.smul (relativeVelocity.dot direction) direction)))
        (position1, velocity1)
      else (position, velocity)
    let properties : EntityItemProperties :=
      ⟨entity.id, Vec3.smul TREE_SCALE pv.1, Vec3.smul TREE_SCALE pv.2, now⟩
    (store.updateEntity eId properties, ⟨[properties], [properties], []⟩)

/-- State threaded through the avatar scan of one entity: the entity store,
the contents of the member buffer `_collisions`, and the accumulated
effects. -/
structure AvatarScanState where
  store : EntityTree
  collisions : List CollisionInfo
  fx : Effects

/-- Inner loop body of `updateCollisionWithAvatars` (lines 230-244):
processing of the buffer entry at index `i`.  The entry is annotated in
place (fixed damping and elasticity, added velocity divided by the world
scale); if the closing test passes, its penetration is also divided in
place and the hard collision is applied. -/
noncomputable def avatarContactStep (eId : ℕ) (now : ℕ) (s : AvatarScanState)
    (i : ℕ) : AvatarScanState :=
  let collision0 := s.collisions.getD i default
  let collision := { collision0 with
    damping := DAMPING
    elasticity := ELASTICITY
    addedVelocity := collision0.addedVelocity.div TREE_SCALE }
  let entity := s.store eId
  let relativeVelocity := collision.addedVelocity.sub entity.velocity
  if relativeVelocity.dot collision.penetration ≤ 0 then
    let collision1 := { collision with penetration := collision.penetration.div TREE_SCALE }
    let r := applyHardCollision s.store eId collision1 now
    ⟨r.1, s.collisions.set i collision1, s.fx.append r.2⟩
  else
    ⟨s.store, s.collisions.set i collision, s.fx⟩

/-- Outer loop body of `updateCollisionWithAvatars` (lines 219-246):
the broad-phase bounding-sphere rejection, then the avatar's exact sphere
query appending into the shared buffer, then the inner loop over every
buffer index from 0 up to the buffer's current size.  The append and the
found-collisions return value of `findSphereCollisions` are modelled from
the spec (section 6): the query records this avatar's contacts into the
supplied bounded buffer up to its remaining capacity and reports whether
any contact was recorded. -/
noncomputable def avatarStep (eId : ℕ) (now : ℕ) (center : Vec3) (radius : ℝ)
    (s : AvatarScanState) (avatar : AvatarData) : AvatarScanState :=
  let totalRadius := avatar.boundingRadius + radius
  let relativePosition := center.sub avatar.position
  if relativePosition.dot relativePosition > totalRadius * totalRadius then s
  else
    let added := avatar.sphereContacts.take
      (MAX_COLLISIONS_PER_Entity - s.collisions.length)
    if added.isEmpty = true then s
    else
      let s1 : AvatarScanState := ⟨s.store, s.collisions ++ added, s.fx⟩
      let numCollisions := s1.collisions.length
      (List.range numCollisions).foldl (avatarContactStep eId now) s1

/-- Avatar scan core of `updateCollisionWithAvatars` (lines 212-246): the
query sphere is fixed from the entity's state at entry, the member buffer
`_collisions` is cleared once, and every avatar of the registry is visited
in order. -/
noncomputable def avatarScan (env : SystemEnv) (store : EntityTree) (eId : ℕ)
    (now : ℕ) : AvatarScanState :=
  let entity := store eId
  let center := Vec3.smul TREE_SCALE entity.position
  let radius := entity.radius * TREE_SCALE
  env.avatars.foldl (avatarStep eId now center radius) ⟨store, [], Effects.empty⟩

/-- Avatar resolver `updateCollisionWithAvatars` (lines 201-247): bail out
when the avatar registry dependency is absent, or when the entity ignores
collisions or is immovable; otherwise run the avatar scan. -/
noncomputable def updateCollisionWithAvatars (env : SystemEnv) (store : EntityTree)
    (eId : ℕ) (now : ℕ) : EntityTree × Effects :=
  if env.avatarRegistryPresent = false then (store, Effects.empty)
  else
    let entity := store eId
    if entity.ignoreForCollisions = true ∨ entity.collisionsWillMove = false then
      (store, Effects.empty)
    else
      let s := avatarScan env store eId now
      (s.store, s.fx)

/-- Per-entity check `checkEntity` (lines 59-62): the entity-pair resolver
followed by the avatar resolver. -/
noncomputable def checkEntity (env : SystemEnv) (store : EntityTree) (eId : ℕ)
    (now : ℕ) : EntityTree × Effects :=
  let r1 := updateCollisionWithEntities env store eId now
  let r2 := updateCollisionWithAvatars env r1.1 eId now
  (r2.1, r1.2.append r2.2)

/-- Tick driver `updateCollisions` (lines 46-56): on a successful
non-blocking write-lock acquisition, check every entity of the moving set
once, in order; on failure, do nothing at all. -/
noncomputable def updateCollisions (env : SystemEnv) (store : EntityTree)
    (now : ℕ) : EntityTree × Effects :=
  if env.lockForWrite = true then
    env.movingEntities.foldl
      (fun s eId =>
        let r := checkEntity env s.1 eId now
        (r.1, s.2.append r.2))
      (store, Effects.empty)
  else (store, Effects.empty)

/-! Helper lemmas about the vector operations and the scan state. -/

/-- Norm of a vector supported on the first component. -/
theorem Vec3.length_mk_x (a : ℝ) : Vec3.length ⟨a, 0, 0⟩ = |a| := by
  have h : Vec3.dot ⟨a, 0, 0⟩ ⟨a, 0, 0⟩ = a ^ 2 := by
    simp [Vec3.dot]; ring
  rw [Vec3.length, h, Real.sqrt_sq_eq_abs]

/-- Scaling to raw world coordinates and converting back is the identity. -/
theorem Vec3.div_smul_same (v : Vec3) : (Vec3.smul TREE_SCALE v).div TREE_SCALE = v := by
  have h : TREE_SCALE ≠ 0 := by norm_num [TREE_SCALE]
  ext <;> simp [Vec3.smul, Vec3.div] <;> field_simp

/-- Dot product of a nonzero vector with itself is positive. -/
theorem Vec3.dot_self_pos (v : Vec3) (h : v ≠ ⟨0, 0, 0⟩) : 0 < v.dot v := by
  rcases v with ⟨a, b, c⟩
  have h1 : a ≠ 0 ∨ b ≠ 0 ∨ c ≠ 0 := by
    by_contra hc
    push_neg at hc
    exact h (by simp [hc.1, hc.2.1, hc.2.2])
  simp only [Vec3.dot]
  rcases h1 with h1 | h1 | h1
  · nlinarith [sq_nonneg a, sq_nonneg b, sq_nonneg c, sq_pos_of_ne_zero h1]
  · nlinarith [sq_nonneg a, sq_nonneg b, sq_nonneg c, sq_pos_of_ne_zero h1]
  · nlinarith [sq_nonneg a, sq_nonneg b, sq_nonneg c, sq_pos_of_ne_zero h1]

/-- The normalized direction of a nonzero vector is a unit vector. -/
theorem Vec3.dot_normalize_self (v : Vec3) (h : 0 < v.dot v) :
    v.normalize.dot v.normalize = 1 := by
  have hs : Real.sqrt (v.dot v) ≠ 0 := by positivity
  have hsq : Real.sqrt (v.dot v) * Real.sqrt (v.dot v) = v.dot v :=
    Real.mul_self_sqrt (le_of_lt h)
  rcases v with ⟨a, b, c⟩
  simp only [Vec3.normalize, Vec3.length, Vec3.div, Vec3.dot] at *
  field_simp

/-- Processing one buffer index never changes the buffer's size. -/
theorem avatarContactStep_length (eId now : ℕ) (s : AvatarScanState) (i : ℕ) :
    (avatarContactStep eId now s i).collisions.length = s.collisions.length := by
  rw [avatarContactStep]
  split <;> simp

/-- The inner index loop never changes the buffer's size. -/
theorem avatarContactFold_length (eId now : ℕ) (l : List ℕ) (s : AvatarScanState) :
    (l.foldl (avatarContactStep eId now) s).collisions.length = s.collisions.length := by
  induction l generalizing s with
  | nil => rfl
  | cons i l ih => rw [List.foldl_cons, ih, avatarContactStep_length]

/-- One avatar pass keeps the buffer within the capacity of `_collisions`. -/
theorem avatarStep_length_le (eId now : ℕ) (center : Vec3) (radius : ℝ)
    (s : AvatarScanState) (avatar : AvatarData)
    (h : s.collisions.length ≤ MAX_COLLISIONS_PER_Entity) :
    (avatarStep eId now center radius s avatar).collisions.length ≤
      MAX_COLLISIONS_PER_Entity := by
  rw [avatarStep]
  split
  · exact h
  · dsimp only
    split
    · exact h
    · rw [avatarContactFold_length]
      simp only [List.length_append, List.length_take]
      omega

/-- The whole avatar scan keeps the buffer within the capacity of
`_collisions`. -/
theorem avatarScan_length_le (env : SystemEnv) (store : EntityTree) (eId now : ℕ) :
    (avatarScan env store eId now).collisions.length ≤ MAX_COLLISIONS_PER_Entity := by
  rw [avatarScan]
  have key : ∀ (l : List AvatarData) (c : Vec3) (r : ℝ) (s : AvatarScanState),
      s.collisions.length ≤ MAX_COLLISIONS_PER_Entity →
      (l.foldl (avatarStep eId now c r) s).collisions.length ≤
        MAX_COLLISIONS_PER_Entity := by
    intro l
    induction l with
    | nil => intro c r s hs; exact hs
    | cons a l ih =>
      intro c r s hs
      exact ih c r _ (avatarStep_length_le eId now c r s a hs)
  exact key env.avatars _ _ _ (by simp)

/-- Reading the updated slot of the store after a property update. -/
theorem EntityTree.updateEntity_same (store : EntityTree) (i : ℕ)
    (p : EntityItemProperties) :
    store.updateEntity i p i =
      { store i with position := p.position.div TREE_SCALE,
                     velocity := p.velocity.div TREE_SCALE } := by
  rw [EntityTree.updateEntity]
  simp

/-- Reading any other slot of the store after a property update. -/
theorem EntityTree.updateEntity_other (store : EntityTree) (i j : ℕ)
    (p : EntityItemProperties) (h : j ≠ i) :
    store.updateEntity i p j = store j := by
  rw [EntityTree.updateEntity]
  simp [h]

/-- A property update carrying an entity's own scaled state leaves the
store unchanged. -/
theorem EntityTree.updateEntity_id (store : EntityTree) (i : ℕ)
    (p : EntityItemProperties)
    (hp : p.position = Vec3.smul TREE_SCALE (store i).position)
    (hv : p.velocity = Vec3.smul TREE_SCALE (store i).velocity) :
    store.updateEntity i p = store := by
  funext j
  rw [EntityTree.updateEntity]
  by_cases hj : j = i
  · subst hj
    rw [if_pos rfl, hp, hv, Vec3.div_smul_same, Vec3.div_smul_same]
  · rw [if_neg hj]

/-- C8: if write access to the spatial index cannot be acquired at the
start of a tick, the tick driver performs no work at all — the entity
store is unchanged and no updates, edit messages or collision
notifications are produced. -/
theorem lock_unavailable_skips_tick (env : SystemEnv) (store : EntityTree)
    (now : ℕ) (h : env.lockForWrite = false) :
    updateCollisions env store now = (store, Effects.empty) := by
  rw [updateCollisions, h]
  simp

/-- C10: on an entity with a known identifier the hard-collision response
always applies exactly one property update to the spatial index and queues
exactly the same update as one outbound edit message, stamped with the
current time and the entity's identifier; an unknown identifier suppresses
everything. -/
theorem hard_collision_always_propagates (store : EntityTree) (eId : ℕ)
    (ci : CollisionInfo) (now : ℕ) :
    ((store eId).isKnownID = true →
      ∃ u : EntityItemProperties,
        applyHardCollision store eId ci now = (store.updateEntity eId u, ⟨[u], [u], []⟩) ∧
        u.entityID = (store eId).id ∧ u.lastEdited = now) ∧
    ((store eId).isKnownID = false →
      applyHardCollision store eId ci now = (store, Effects.empty)) := by
  constructor
  · intro h
    simp only [applyHardCollision, h, Bool.true_eq_false, if_false]
    exact ⟨_, rfl, rfl, rfl⟩
  · intro h
    simp only [applyHardCollision, h, if_true]

/-- C9: a contact whose relative velocity projects non-negatively onto the
penetration vector produces no correction in the hard-collision response:
the store is unchanged and the propagated update carries the entity's
unchanged position and velocity, merely rescaled to raw coordinates. -/
theorem separating_contact_passes_through (store : EntityTree) (eId : ℕ)
    (ci : CollisionInfo) (now : ℕ)
    (hK : (store eId).isKnownID = true)
    (hsep : 0 ≤ (ci.addedVelocity.sub (store eId).velocity).dot ci.penetration) :
    applyHardCollision store eId ci now =
      (store,
       ⟨[⟨(store eId).id, Vec3.smul TREE_SCALE (store eId).position,
          Vec3.smul TREE_SCALE (store eId).velocity, now⟩],
        [⟨(store eId).id, Vec3.smul TREE_SCALE (store eId).position,
          Vec3.smul TREE_SCALE (store eId).velocity, now⟩], []⟩) := by
  have hnotlt : ¬ ((ci.addedVelocity.sub (store eId).velocity).dot ci.penetration
      < EPSILON) := by
    rw [EPSILON]
    push_neg
    norm_num
    exact hsep
  simp only [applyHardCollision, hK, Bool.true_eq_false, if_false, hnotlt]
  rw [EntityTree.updateEntity_id store eId _ rfl rfl]

/-- C6: an approaching contact slower than the halting threshold puts the
entity exactly at the contact's added velocity (static-friction stick),
and the propagated update carries the snapped-out position and that
velocity. -/
theorem halting_contact_sticks (store : EntityTree) (eId : ℕ)
    (ci : CollisionInfo) (now : ℕ)
    (hK : (store eId).isKnownID = true)
    (happ : (ci.addedVelocity.sub (store eId).velocity).dot ci.penetration < 0)
    (hslow : (ci.addedVelocity.sub (store eId).velocity).length
      < HALTING_ENTITY_SPEED) :
    (((applyHardCollision store eId ci now).1) eId).velocity = ci.addedVelocity ∧
    (applyHardCollision store eId ci now).2.queuedMessages =
      [⟨(store eId).id,
        Vec3.smul TREE_SCALE ((store eId).position.sub ci.penetration),
        Vec3.smul TREE_SCALE ci.addedVelocity, now⟩] := by
  have happ' : (ci.addedVelocity.sub (store eId).velocity).dot ci.penetration
      < EPSILON := by
    rw [EPSILON]
    norm_num
    exact happ
  simp only [applyHardCollision, hK, Bool.true_eq_false, if_false, happ', if_true,
    hslow]
  refine ⟨?_, trivial⟩
  rw [EntityTree.updateEntity_same]
  simp [Vec3.div_smul_same]

/-- Algebraic core of the elastic reflection: with a unit direction, zero
damping and elasticity one, the reflected relative velocity's normal
component is the exact negation of the incoming one. -/
theorem reflect_dot (av v d : Vec3) (h : d.dot d = 1) :
    (av.sub ((v.add (Vec3.smul ((av.sub v).dot d * (1 + 1)) d)).add
      (Vec3.smul 0 ((av.sub v).sub (Vec3.smul ((av.sub v).dot d) d))))).dot d
      = - ((av.sub v).dot d) := by
  rcases av with ⟨ax, ay, az⟩
  rcases v with ⟨vx, vy, vz⟩
  rcases d with ⟨dx, dy, dz⟩
  simp only [Vec3.sub, Vec3.add, Vec3.smul, Vec3.dot] at *
  linear_combination (-(2 : ℝ) * ((ax - vx) * dx + (ay - vy) * dy + (az - vz) * dz)) * h

/-- C7: with elasticity 1 and damping 0, a fast approaching contact
reflects the normal component of the relative velocity exactly: after the
hard-collision response it has equal magnitude and opposite sign. -/
theorem elastic_reflection_round_trip (store : EntityTree) (eId : ℕ)
    (ci : CollisionInfo) (now : ℕ)
    (hK : (store eId).isKnownID = true)
    (hE : ci.elasticity = 1)
    (hD : ci.damping = 0)
    (happ : (ci.addedVelocity.sub (store eId).velocity).dot ci.penetration < 0)
    (hfast : ¬ (ci.addedVelocity.sub (store eId).velocity).length
      < HALTING_ENTITY_SPEED) :
    (ci.addedVelocity.sub
        ((((applyHardCollision store eId ci now).1) eId).velocity)).dot
      ci.penetration.normalize
    = - ((ci.addedVelocity.sub (store eId).velocity).dot
        ci.penetration.normalize) := by
  have happ' : (ci.addedVelocity.sub (store eId).velocity).dot ci.penetration
      < EPSILON := by
    rw [EPSILON]
    norm_num
    exact happ
  have hpen : ci.penetration ≠ ⟨0, 0, 0⟩ := by
    intro h0
    rw [h0] at happ
    simp [Vec3.dot] at happ
  have hdd : ci.penetration.normalize.dot ci.penetration.normalize = 1 :=
    Vec3.dot_normalize_self _ (Vec3.dot_self_pos _ hpen)
  have hclamp : min (max ci.damping 0) 1 = (0 : ℝ) := by
    rw [hD]
    norm_num
  simp only [applyHardCollision, hK, Bool.true_eq_false, if_false, happ', if_true,
    hfast, hclamp, hE]
  rw [EntityTree.updateEntity_same]
  simp only [Vec3.div_smul_same]
  exact reflect_dot ci.addedVelocity (store eId).velocity ci.penetration.normalize hdd

/-! Concrete fixtures used by the witness theorems. -/

/-- Background entity whose identifier is still unresolved. -/
def entUnknown : EntityItem :=
  ⟨0, false, false, false, ⟨0, 0, 0⟩, ⟨0, 0, 0⟩, 0, 0, 0⟩

/-- Known, movable test entity stored at slot 1, at rest at the origin. -/
def entW : EntityItem :=
  ⟨1, true, false, true, ⟨0, 0, 0⟩, ⟨0, 0, 0⟩, 0, 2, 1⟩

/-- Test store: entity `entW` at slot 1, unresolved entities elsewhere. -/
def storeW : EntityTree := fun j => if j = 1 then entW else entUnknown

/-- Separating test contact: relative velocity along the penetration. -/
def ciSep : CollisionInfo := ⟨⟨1, 0, 0⟩, ⟨0, 0, 0⟩, ⟨1, 0, 0⟩, 0, 0, none⟩

/-- Slow approaching test contact, below the halting threshold. -/
noncomputable def ciSlow : CollisionInfo :=
  ⟨⟨-1, 0, 0⟩, ⟨0, 0, 0⟩, ⟨1 / 1000000, 0, 0⟩, 0, 0, none⟩

/-- Fast approaching test contact with elasticity 1 and damping 0. -/
def ciFast : CollisionInfo := ⟨⟨-1, 0, 0⟩, ⟨0, 0, 0⟩, ⟨1, 0, 0⟩, 0, 1, none⟩

/-- Tick environment whose write-lock acquisition fails. -/
def envLockFail : SystemEnv := ⟨false, [1, 2], fun _ => [], true, []⟩

/-- Witness for C8 at a concrete environment with a failed lock. -/
theorem lock_unavailable_skips_tick_witness :
    updateCollisions envLockFail storeW 3 = (storeW, Effects.empty) :=
  lock_unavailable_skips_tick envLockFail storeW 3 rfl

/-- Witness for C10 at slot 1 (known identifier) and slot 0 (unknown). -/
theorem hard_collision_always_propagates_witness :
    (∃ u : EntityItemProperties,
      applyHardCollision storeW 1 ciSep 5 = (storeW.updateEntity 1 u, ⟨[u], [u], []⟩) ∧
      u.entityID = (storeW 1).id ∧ u.lastEdited = 5) ∧
    applyHardCollision storeW 0 ciSep 5 = (storeW, Effects.empty) :=
  ⟨(hard_collision_always_propagates storeW 1 ciSep 5).1 rfl,
   (hard_collision_always_propagates storeW 0 ciSep 5).2 rfl⟩

/-- Witness for C9 at a concrete separating contact. -/
theorem separating_contact_passes_through_witness :
    applyHardCollision storeW 1 ciSep 5 =
      (storeW,
       ⟨[⟨(storeW 1).id, Vec3.smul TREE_SCALE (storeW 1).position,
          Vec3.smul TREE_SCALE (storeW 1).velocity, 5⟩],
        [⟨(storeW 1).id, Vec3.smul TREE_SCALE (storeW 1).position,
          Vec3.smul TREE_SCALE (storeW 1).velocity, 5⟩], []⟩) :=
  separating_contact_passes_through storeW 1 ciSep 5 rfl
    (by norm_num [ciSep, storeW, entW, Vec3.sub, Vec3.dot])

/-- Witness for C6 at a concrete slow approaching contact. -/
theorem halting_contact_sticks_witness :
    (((applyHardCollision storeW 1 ciSlow 5).1) 1).velocity = ciSlow.addedVelocity ∧
    (applyHardCollision storeW 1 ciSlow 5).2.queuedMessages =
      [⟨(storeW 1).id,
        Vec3.smul TREE_SCALE ((storeW 1).position.sub ciSlow.penetration),
        Vec3.smul TREE_SCALE ciSlow.addedVelocity, 5⟩] :=
  halting_contact_sticks storeW 1 ciSlow 5 rfl
    (by norm_num [ciSlow, storeW, entW, Vec3.sub, Vec3.dot])
    (by
      have hv : ciSlow.addedVelocity.sub (storeW 1).velocity =
          ⟨1 / 1000000, 0, 0⟩ := by
        norm_num [ciSlow, storeW, entW, Vec3.sub, Vec3.mk.injEq]
      rw [hv, Vec3.length_mk_x, abs_of_nonneg (by norm_num),
        HALTING_ENTITY_SPEED, HALTING_ENTITY_PERIOD, TREE_SCALE]
      norm_num)

/-- Witness for C7 at a concrete fast approaching contact. -/
theorem elastic_reflection_round_trip_witness :
    (ciFast.addedVelocity.sub
        ((((applyHardCollision storeW 1 ciFast 5).1) 1).velocity)).dot
      ciFast.penetration.normalize
    = - ((ciFast.addedVelocity.sub (storeW 1).velocity).dot
        ciFast.penetration.normalize) :=
  elastic_reflection_round_trip storeW 1 ciFast 5 rfl rfl rfl
    (by norm_num [ciFast, storeW, entW, Vec3.sub, Vec3.dot])
    (by
      have hv : ciFast.addedVelocity.sub (storeW 1).velocity = ⟨1, 0, 0⟩ := by
        norm_num [ciFast, storeW, entW, Vec3.sub, Vec3.mk.injEq]
      rw [hv, Vec3.length_mk_x, abs_of_nonneg (by norm_num),
        HALTING_ENTITY_SPEED, HALTING_ENTITY_PERIOD, TREE_SCALE]
      norm_num)

/-- With exactly one movable side the override gives the full 2/0 split,
whatever the masses are. -/
theorem massRatios_movable_immovable (massA massB : ℝ) :
    massRatios massA massB true false = (2, 0) := by
  simp [massRatios]

/-- With both sides movable and equal nonzero masses both coefficients are
exactly one. -/
theorem massRatios_equal_masses (m : ℝ) (hm : m ≠ 0) :
    massRatios m m true true = (1, 1) := by
  have hm2 : m + m ≠ 0 := fun h0 => hm (by linarith)
  have h : 2 * m / (m + m) = 1 := by
    rw [show 2 * m = m + m by ring, div_self hm2]
  simp [massRatios, h]

/-- C4: a candidate pair whose relative velocity projects non-positively
onto the penetration vector produces no update, no edit message and no
collision notification, and the rest of the scan proceeds as if the pair
had not been reported. -/
theorem separating_pair_not_resolved (aId now : ℕ) (store : EntityTree)
    (fx : Effects) (c : CollisionInfo) (bId : ℕ) (rest : List CollisionInfo)
    (h1 : c.extraData = some bId)
    (h2 : (store bId).isKnownID = true)
    (hdot : ((store aId).velocity.sub ((store bId).velocity)).dot
        (c.penetration.div TREE_SCALE) ≤ 0) :
    pairStep aId now (store, fx) c = (store, fx) ∧
    (c :: rest).foldl (pairStep aId now) (store, fx) =
      rest.foldl (pairStep aId now) (store, fx) := by
  have hstep : pairStep aId now (store, fx) c = (store, fx) := by
    rcases c with ⟨pen, cp, av, dmp, el, ed⟩
    subst h1
    simp only [pairStep, h2, Bool.true_eq_false, if_false]
    rw [if_neg]
    intro hcond
    rcases hcond with ⟨-, hm, -⟩
    simp only at hm hdot
    linarith
  exact ⟨hstep, by rw [List.foldl_cons, hstep]⟩

/-- C3: for an overlapping, closing pair whose probing side is movable and
whose counterpart is immovable, resolution updates only the probing side
— one property update and one edit message, built with velocity-response
ratio exactly 2 whatever the two masses are — while the immovable
counterpart's stored state is untouched and no update names it. -/
theorem immovable_side_never_perturbed (aId bId now : ℕ) (store : EntityTree)
    (fx : Effects) (c : CollisionInfo)
    (h1 : c.extraData = some bId)
    (h2 : (store bId).isKnownID = true)
    (hA : (store aId).collisionsWillMove = true)
    (hB : (store bId).collisionsWillMove = false)
    (henc : ¬ (c.penetration.div TREE_SCALE).length > (store aId).largestDimension)
    (hdot : ((store aId).velocity.sub ((store bId).velocity)).dot
        (c.penetration.div TREE_SCALE) > 0) :
    pairStep aId now (store, fx) c =
      (store.updateEntity aId
        ⟨(store aId).id,
         Vec3.smul TREE_SCALE ((store aId).position.sub
           (Vec3.smul 0.5 (c.penetration.div TREE_SCALE))),
         Vec3.smul TREE_SCALE ((store aId).velocity.sub (Vec3.smul 2
           (Vec3.smul (((store aId).velocity.sub ((store bId).velocity)).dot
               c.penetration.normalize) c.penetration.normalize))),
         now⟩,
       fx.append
         ⟨[⟨(store aId).id,
            Vec3.smul TREE_SCALE ((store aId).position.sub
              (Vec3.smul 0.5 (c.penetration.div TREE_SCALE))),
            Vec3.smul TREE_SCALE ((store aId).velocity.sub (Vec3.smul 2
              (Vec3.smul (((store aId).velocity.sub ((store bId).velocity)).dot
                  c.penetration.normalize) c.penetration.normalize))),
            now⟩],
          [⟨(store aId).id,
            Vec3.smul TREE_SCALE ((store aId).position.sub
              (Vec3.smul 0.5 (c.penetration.div TREE_SCALE))),
            Vec3.smul TREE_SCALE ((store aId).velocity.sub (Vec3.smul 2
              (Vec3.smul (((store aId).velocity.sub ((store bId).velocity)).dot
                  c.penetration.normalize) c.penetration.normalize))),
            now⟩],
          [⟨(store aId).id, (store bId).id, c.penetration,
            Vec3.smul (0.5 * TREE_SCALE) (((store aId).position.sub
              (Vec3.smul 0.5 (c.penetration.div TREE_SCALE))).add
              ((store bId).position))⟩]⟩) ∧
    (pairStep aId now (store, fx) c).1 bId = store bId ∧
    massRatios (store aId).mass (store bId).mass true false = (2, 0) := by
  have hne : aId ≠ bId := by
    intro h
    rw [h, hB] at hA
    exact Bool.false_ne_true hA
  have hOther : ∀ p, store.updateEntity aId p bId = store bId :=
    fun p => EntityTree.updateEntity_other store aId bId p (Ne.symm hne)
  have hmain : pairStep aId now (store, fx) c =
      (store.updateEntity aId
        ⟨(store aId).id,
         Vec3.smul TREE_SCALE ((store aId).position.sub
           (Vec3.smul 0.5 (c.penetration.div TREE_SCALE))),
         Vec3.smul TREE_SCALE ((store aId).velocity.sub (Vec3.smul 2
           (Vec3.smul (((store aId).velocity.sub ((store bId).velocity)).dot
               c.penetration.normalize) c.penetration.normalize))),
         now⟩,
       fx.append
         ⟨[⟨(store aId).id,
            Vec3.smul TREE_SCALE ((store aId).position.sub
              (Vec3.smul 0.5 (c.penetration.div TREE_SCALE))),
            Vec3.smul TREE_SCALE ((store aId).velocity.sub (Vec3.smul 2
              (Vec3.smul (((store aId).velocity.sub ((store bId).velocity)).dot
                  c.penetration.normalize) c.penetration.normalize))),
            now⟩],
          [⟨(store aId).id,
            Vec3.smul TREE_SCALE ((store aId).position.sub
              (Vec3.smul 0.5 (c.penetration.div TREE_SCALE))),
            Vec3.smul TREE_SCALE ((store aId).velocity.sub (Vec3.smul 2
              (Vec3.smul (((store aId).velocity.sub ((store bId).velocity)).dot
                  c.penetration.normalize) c.penetration.normalize))),
            now⟩],
          [⟨(store aId).id, (store bId).id, c.penetration,
            Vec3.smul (0.5 * TREE_SCALE) (((store aId).position.sub
              (Vec3.smul 0.5 (c.penetration.div TREE_SCALE))).add
              ((store bId).position))⟩]⟩) := by
    rcases c with ⟨pen, cp, av, dmp, el, ed⟩
    subst h1
    simp only [pairStep, h2, Bool.true_eq_false, if_false]
    rw [hA, hB, massRatios_movable_immovable]
    rw [if_pos ⟨henc, hdot, Or.inl rfl⟩]
    rw [if_pos rfl]
    rw [if_neg Bool.false_ne_true]
    simp only [hOther, EntityTree.updateEntity_same, Vec3.div_smul_same]
    simp [Effects.append]
  refine ⟨hmain, ?_, by rw [massRatios_movable_immovable]⟩
  rw [hmain]
  exact hOther _

/-- C5: for an overlapping, closing pair with equal nonzero masses and both
sides movable, both velocity-ratio coefficients are exactly one and the
positional correction splits the penetration evenly — half subtracted from
the probing side's position, half added to the counterpart's. -/
theorem equal_mass_symmetric_split (aId bId now : ℕ) (store : EntityTree)
    (fx : Effects) (c : CollisionInfo)
    (h1 : c.extraData = some bId)
    (h2 : (store bId).isKnownID = true)
    (hA : (store aId).collisionsWillMove = true)
    (hB : (store bId).collisionsWillMove = true)
    (hne : aId ≠ bId)
    (hmass : (store bId).mass = (store aId).mass)
    (hm0 : (store aId).mass ≠ 0)
    (henc : ¬ (c.penetration.div TREE_SCALE).length > (store aId).largestDimension)
    (hdot : ((store aId).velocity.sub ((store bId).velocity)).dot
        (c.penetration.div TREE_SCALE) > 0) :
    massRatios (store aId).mass ((store bId).mass)
        ((store aId).collisionsWillMove) ((store bId).collisionsWillMove) = (1, 1) ∧
    (pairStep aId now (store, fx) c).1 aId =
      { store aId with
        position := (store aId).position.sub
          (Vec3.smul 0.5 (c.penetration.div TREE_SCALE)),
        velocity := (store aId).velocity.sub (Vec3.smul 1
          (Vec3.smul (((store aId).velocity.sub ((store bId).velocity)).dot
              c.penetration.normalize) c.penetration.normalize)) } ∧
    (pairStep aId now (store, fx) c).1 bId =
      { store bId with
        position := (store bId).position.add
          (Vec3.smul 0.5 (c.penetration.div TREE_SCALE)),
        velocity := (store bId).velocity.add (Vec3.smul 1
          (Vec3.smul (((store aId).velocity.sub ((store bId).velocity)).dot
              c.penetration.normalize) c.penetration.normalize)) } := by
  have hOtherA : ∀ p, store.updateEntity aId p bId = store bId :=
    fun p => EntityTree.updateEntity_other store aId bId p (Ne.symm hne)
  have hProjA : ∀ (s : EntityTree) p, s.updateEntity bId p aId = s aId :=
    fun s p => EntityTree.updateEntity_other s bId aId p hne
  refine ⟨by rw [hA, hB, hmass, massRatios_equal_masses _ hm0], ?_, ?_⟩
  · rcases c with ⟨pen, cp, av, dmp, el, ed⟩
    subst h1
    simp only [pairStep, h2, Bool.true_eq_false, if_false]
    rw [hA, hB, hmass, massRatios_equal_masses _ hm0]
    rw [if_pos ⟨henc, hdot, Or.inl rfl⟩, if_pos rfl, if_pos rfl]
    simp only [hProjA, hOtherA, EntityTree.updateEntity_same, Vec3.div_smul_same]
    simp only [hA, hB, h2, hmass]
  · rcases c with ⟨pen, cp, av, dmp, el, ed⟩
    subst h1
    simp only [pairStep, h2, Bool.true_eq_false, if_false]
    rw [hA, hB, hmass, massRatios_equal_masses _ hm0]
    rw [if_pos ⟨henc, hdot, Or.inl rfl⟩, if_pos rfl, if_pos rfl]
    simp only [hProjA, hOtherA, EntityTree.updateEntity_same, Vec3.div_smul_same]
    simp only [hA, hB, h2, hmass]

/-- Movable probing entity used by the pair-resolver witnesses. -/
def entA1 : EntityItem := ⟨1, true, false, true, ⟨0, 0, 0⟩, ⟨1, 0, 0⟩, 0, 2, 3⟩

/-- Immovable counterpart entity used by the pair-resolver witnesses. -/
def entB2 : EntityItem := ⟨2, true, false, false, ⟨0, 0, 0⟩, ⟨0, 0, 0⟩, 0, 2, 5⟩

/-- Store holding the movable/immovable pair at slots 1 and 2. -/
def storeAB : EntityTree :=
  fun j => if j = 1 then entA1 else if j = 2 then entB2 else entUnknown

/-- Closing overlap record from slot 1 into slot 2. -/
def cClosing : CollisionInfo :=
  ⟨⟨1, 0, 0⟩, ⟨0, 0, 0⟩, ⟨0, 0, 0⟩, 0, 0, some 2⟩

/-- Separating overlap record from slot 1 against slot 2. -/
def cSeparating : CollisionInfo :=
  ⟨⟨-1, 0, 0⟩, ⟨0, 0, 0⟩, ⟨0, 0, 0⟩, 0, 0, some 2⟩

/-- Movable probing entity of mass 4 for the equal-mass witness. -/
def entA5 : EntityItem := ⟨1, true, false, true, ⟨0, 0, 0⟩, ⟨1, 0, 0⟩, 0, 2, 4⟩

/-- Movable counterpart entity of mass 4 for the equal-mass witness. -/
def entB5 : EntityItem := ⟨2, true, false, true, ⟨0, 0, 0⟩, ⟨0, 0, 0⟩, 0, 2, 4⟩

/-- Store holding the two equal-mass movable entities at slots 1 and 2. -/
def store5 : EntityTree :=
  fun j => if j = 1 then entA5 else if j = 2 then entB5 else entUnknown

/-- Witness for C3 at the concrete movable/immovable pair: the immovable
side's stored state is untouched. -/
theorem immovable_side_never_perturbed_witness :
    (pairStep 1 9 (storeAB, Effects.empty) cClosing).1 2 = storeAB 2 :=
  (immovable_side_never_perturbed 1 2 9 storeAB Effects.empty cClosing
    rfl rfl rfl rfl
    (by
      have hpen : cClosing.penetration.div TREE_SCALE = ⟨1 / 16384, 0, 0⟩ := by
        norm_num [cClosing, Vec3.div, TREE_SCALE, Vec3.mk.injEq]
      rw [hpen, Vec3.length_mk_x, abs_of_nonneg (by norm_num)]
      norm_num [storeAB, entA1])
    (by norm_num [storeAB, entA1, entB2, cClosing, Vec3.sub, Vec3.dot,
      Vec3.div, TREE_SCALE])).2.1

/-- Witness for C4 at the concrete separating pair: the step is a no-op and
the remaining scan is unaffected. -/
theorem separating_pair_not_resolved_witness :
    pairStep 1 9 (storeAB, Effects.empty) cSeparating = (storeAB, Effects.empty) :=
  (separating_pair_not_resolved 1 9 storeAB Effects.empty cSeparating 2 [cClosing]
    rfl rfl
    (by norm_num [storeAB, entA1, entB2, cSeparating, Vec3.sub, Vec3.dot,
      Vec3.div, TREE_SCALE])).1

/-- Witness for C5 at the concrete equal-mass pair: both ratio coefficients
are exactly one. -/
theorem equal_mass_symmetric_split_witness :
    massRatios (store5 1).mass ((store5 2).mass)
      ((store5 1).collisionsWillMove) ((store5 2).collisionsWillMove) = (1, 1) :=
  (equal_mass_symmetric_split 1 2 9 store5 Effects.empty cClosing
    rfl rfl rfl rfl (by norm_num) rfl
    (by norm_num [store5, entA5])
    (by
      have hpen : cClosing.penetration.div TREE_SCALE = ⟨1 / 16384, 0, 0⟩ := by
        norm_num [cClosing, Vec3.div, TREE_SCALE, Vec3.mk.injEq]
      rw [hpen, Vec3.length_mk_x, abs_of_nonneg (by norm_num)]
      norm_num [store5, entA5])
    (by norm_num [store5, entA5, entB5, cClosing, Vec3.sub, Vec3.dot,
      Vec3.div, TREE_SCALE])).1

/-- Overlap record used only for counting: its closing test never passes. -/
def cCount : CollisionInfo := ⟨⟨0, 0, 1⟩, ⟨0, 0, 0⟩, ⟨0, 0, 16384⟩, 0, 0, none⟩

/-- Avatar reporting seventeen sphere contacts for the probing entity. -/
def avMany : AvatarData := ⟨⟨0, 0, 0⟩, 1, List.replicate 17 cCount⟩

/-- Environment reporting seventeen shape overlaps for entity 1 and one
avatar with seventeen sphere contacts. -/
def envMany : SystemEnv :=
  ⟨true, [1], fun _ => List.replicate 17 cCount, true, [avMany]⟩

/-- Counterexample to C2: the two resolvers are not bounded by one shared
configuration constant.  With seventeen overlaps reported on each path,
the entity-pair resolver's per-call list retains all seventeen, while the
avatar resolver's buffer retains only sixteen and drops the seventeenth;
the two capacity constants differ (16 versus 32). -/
theorem contact_caps_differ :
    avMany.sphereContacts.length = 17 ∧
    (entityContactList envMany 1).length = 17 ∧
    (avatarScan envMany storeW 1 0).collisions.length = 16 ∧
    MAX_COLLISIONS_PER_Entity ≠ MAX_COLLISIONS_PER_ENTITY := by
  refine ⟨by simp [avMany], ?_, ?_, by
    norm_num [MAX_COLLISIONS_PER_Entity, MAX_COLLISIONS_PER_ENTITY]⟩
  · simp [entityContactList, envMany, MAX_COLLISIONS_PER_ENTITY]
  · rw [avatarScan]
    simp only [envMany, List.foldl_cons, List.foldl_nil]
    rw [avatarStep]
    rw [if_neg (by
      norm_num [storeW, entW, avMany, Vec3.smul, Vec3.sub, Vec3.dot, TREE_SCALE])]
    dsimp only
    rw [if_neg (by
      simp [avMany, MAX_COLLISIONS_PER_Entity, List.take_replicate])]
    rw [avatarContactFold_length]
    simp [avMany, MAX_COLLISIONS_PER_Entity, List.take_replicate]

/-- C2 amended: each path bounds its per-entity contact count by its own
fixed configuration constant — the entity-pair resolver's per-call list by
`MAX_COLLISIONS_PER_ENTITY` (32), the avatar resolver's reusable buffer by
`MAX_COLLISIONS_PER_Entity` (16) — and a scan with more overlaps than the
cap still completes, silently dropping the excess. -/
theorem contact_caps_amended (env : SystemEnv) (store : EntityTree)
    (aId eId now : ℕ) :
    (entityContactList env aId).length ≤ MAX_COLLISIONS_PER_ENTITY ∧
    (avatarScan env store eId now).collisions.length ≤ MAX_COLLISIONS_PER_Entity :=
  ⟨by simp [entityContactList], avatarScan_length_le env store eId now⟩

/-- Movable entity scanned against the avatars in the reprocessing
scenario: at rest at the origin with a small velocity along x. -/
noncomputable def entAv : EntityItem :=
  ⟨1, true, false, true, ⟨0, 0, 0⟩, ⟨1 / 100000, 0, 0⟩, 0, 1, 1⟩

/-- Store holding the scanned entity at slot 1. -/
noncomputable def storeAv : EntityTree := fun j => if j = 1 then entAv else entUnknown

/-- Contact reported by the first avatar: slow and approaching, so it is
honored once and then sits in the shared buffer. -/
noncomputable def cAv1 : CollisionInfo :=
  ⟨⟨1, 0, 0⟩, ⟨0, 0, 0⟩, ⟨16384 / 200000, 0, 0⟩, 0, 0, none⟩

/-- Contact reported by the second avatar: separating, never honored. -/
def cAv2 : CollisionInfo := ⟨⟨0, 0, 1⟩, ⟨0, 0, 0⟩, ⟨0, 0, 16384⟩, 0, 0, none⟩

/-- First avatar of the reprocessing scenario. -/
noncomputable def avFirst : AvatarData := ⟨⟨0, 0, 0⟩, 1, [cAv1]⟩

/-- Second avatar of the reprocessing scenario. -/
def avSecond : AvatarData := ⟨⟨0, 0, 0⟩, 1, [cAv2]⟩

/-- Environment with both avatars present. -/
noncomputable def envTwoAvatars : SystemEnv :=
  ⟨true, [1], fun _ => [], true, [avFirst, avSecond]⟩

/-- Environment with only the first avatar present. -/
noncomputable def envOneAvatar : SystemEnv :=
  ⟨true, [1], fun _ => [], true, [avFirst]⟩

/-- C1 (code bug): with the first avatar alone, its single honored contact
produces exactly one hard collision, whose queued velocity is the added
velocity divided by the world scale once.  Adding a second avatar — whose
own contact is separating and never honored — makes the scan revisit the
first avatar's buffered contact from index 0, divide its added velocity by
the world scale a second time and apply the hard collision to it again:
two edit messages are queued, the second carrying the once-more-divided
velocity. -/
theorem avatar_contact_reprocessed :
    (updateCollisionWithAvatars envOneAvatar storeAv 1 7).2.queuedMessages.map
        (fun p => p.velocity) = [⟨16384 / 200000, 0, 0⟩] ∧
    (updateCollisionWithAvatars envTwoAvatars storeAv 1 7).2.queuedMessages.map
        (fun p => p.velocity) =
      [⟨16384 / 200000, 0, 0⟩, ⟨1 / 200000, 0, 0⟩] := by
  have hr1 : List.range 1 = [0] := rfl
  have hr2 : List.range 2 = [0, 1] := rfl
  constructor <;>
  · norm_num [updateCollisionWithAvatars, avatarScan, avatarStep, avatarContactStep,
      applyHardCollision, EntityTree.updateEntity, envOneAvatar, envTwoAvatars,
      avFirst, avSecond, storeAv, entAv, entUnknown, cAv1, cAv2, DAMPING,
      ELASTICITY, EPSILON, HALTING_ENTITY_SPEED, HALTING_ENTITY_PERIOD, TREE_SCALE,
      Vec3.sub, Vec3.add, Vec3.smul, Vec3.div, Vec3.dot, Vec3.length_mk_x,
      Effects.append, Effects.empty, hr1, hr2, abs_lt, Vec3.mk.injEq,
      MAX_COLLISIONS_PER_Entity]
